import Mathlib

/-!
Shallow embedding of the taiko-client settlement-layer core:
the blob transaction-list fetcher (`driver/txlist_fetcher/blob.go`),
the proof contester (`prover/proof_submitter`, `ProofContester.SubmitContest`),
and spec-level models of `ProofSubmitter.SubmitProof` / `RequestProof`
whose implementations are exercised only by the tests in the sources.

External collaborators (RPC clients, the beacon API, KZG hashing, hex
decoding, the blob decoder, the transaction sender, the custom-error
parser) are modelled as fields of explicit environment records; the
functions under verification are translated line by line from the Go
sources and additionally return the list of side effects they performed
(beacon queries, transactions handed to the sender).
-/

namespace TaikoClient

/-- Byte sequences (Go `[]byte`), each byte a `Nat`. -/
abbrev Bytes := List Nat

/-- 32-byte hash values (`common.Hash`, `[32]byte`). -/
abbrev Hash := List Nat

/-- 20-byte addresses (`common.Address`). -/
abbrev Address := List Nat

/-- The zero address `common.Address{}` (20 zero bytes). -/
def zeroAddress : Address := List.replicate 20 0

/-- A Go `error` value, identified by its `Error()` message. -/
structure GoErr where
  msg : List Char
  deriving DecidableEq

/-- The fields of `bindings.TaikoDataBlockMetadata` used by this core:
blob-usage flag, proposal L1 height, and the 32-byte blob hash,
plus the block id used by the metadata re-read in `SubmitProof`. -/
structure TaikoDataBlockMetadata where
  blobUsed : Bool
  l1Height : Nat
  blobHash : Hash
  blockId : Nat
  deriving DecidableEq

/-- A beacon blob sidecar: hex-encoded KZG commitment and blob payload. -/
structure BlobSidecar where
  kzgCommitment : List Char
  blob : List Char
  deriving DecidableEq

/-- Error kinds that `BlobFetcher.Fetch` can return. -/
inductive FetchErr where
  /-- `errBlobUnused`: the metadata says the tx list was not put in a blob. -/
  | blobUnused
  /-- `errSidecarNotFound`: no sidecar's commitment hash matched. -/
  | sidecarNotFound
  /-- An error propagated from `rpc.L1Beacon.GetBlobs`. -/
  | rpcErr (e : GoErr)
  /-- An error propagated from `rpc.Blob.ToData`. -/
  | decodeErr (e : GoErr)
  deriving DecidableEq

/-- Environment of external collaborators used by `BlobFetcher.Fetch`:
the beacon sidecar source, the canonical blob-commitment hashing
(`kzg4844.CalcBlobHashV1` seeded with `sha256.New()`), hex decoding
(`common.FromHex`), and the blob decoder (`rpc.Blob.ToData`). -/
structure BeaconEnv where
  getBlobs : Nat → Except GoErr (List BlobSidecar)
  calcBlobHash : Bytes → Hash
  fromHex : List Char → Bytes
  toData : Bytes → Except GoErr Bytes

/-- The per-sidecar comparison in `Fetch`'s loop: decode the hex KZG
commitment, hash it, and compare byte-for-byte with the target hash. -/
def sidecarMatches (env : BeaconEnv) (target : Hash) (s : BlobSidecar) : Bool :=
  env.calcBlobHash (env.fromHex s.kzgCommitment) = target

/-- The `for i, sidecar := range sidecars` loop of `Fetch`: return the
decoded payload of the first sidecar whose commitment hash equals the
target, or `errSidecarNotFound` after exhausting the list. -/
def findAndDecode (env : BeaconEnv) (target : Hash) :
    List BlobSidecar → Except FetchErr Bytes
  | [] => .error .sidecarNotFound
  | s :: rest =>
    if sidecarMatches env target s then
      match env.toData (env.fromHex s.blob) with
      | .ok d => .ok d
      | .error e => .error (.decodeErr e)
    else findAndDecode env target rest

/-- `BlobFetcher.Fetch` (driver/txlist_fetcher/blob.go). The second
component of the result is the list of slots for which the beacon
`GetBlobs` call was issued, recording the network reads performed. -/
def fetch (env : BeaconEnv) (meta : TaikoDataBlockMetadata) :
    Except FetchErr Bytes × List Nat :=
  if !meta.blobUsed then
    (.error .blobUnused, [])
  else
    match env.getBlobs (meta.l1Height + 1) with
    | .error e => (.error (.rpcErr e), [meta.l1Height + 1])
    | .ok sidecars => (findAndDecode env meta.blobHash sidecars, [meta.l1Height + 1])

/-! ## ProofContester (`ProofContester.SubmitContest`) -/

/-- The fields of an L2 block header (`types.Header`) read by this core.
`hashVal` stands for the derived `Header.Hash()` value. -/
structure Header where
  parentHash : Hash
  root : Hash
  hashVal : Hash
  deriving DecidableEq

/-- `bindings.TaikoDataTransition`: the transition struct passed to the
prove-block transaction builder. -/
structure TaikoDataTransition where
  parentHash : Hash
  blockHash : Hash
  stateRoot : Hash
  graffiti : Hash
  deriving DecidableEq

/-- The on-chain transition state returned by `TaikoL1.GetTransition`:
the fields this core reads are the contester address and the tier. -/
structure TaikoDataTransitionState where
  contester : Address
  tier : Nat
  deriving DecidableEq

/-- `bindings.TaikoDataTierProof`. -/
structure TaikoDataTierProof where
  tier : Nat
  data : Bytes
  deriving DecidableEq

/-- `proofProducer.ProofRequestOptions` (the fields set by `SubmitContest`). -/
structure ProofRequestOptions where
  eventL1Hash : Hash
  stateRoot : Hash
  deriving DecidableEq

/-- `proofProducer.ProofWithHeader`: the unit handed to the sender. -/
structure ProofWithHeader where
  blockID : Nat
  meta : TaikoDataBlockMetadata
  header : Header
  proof : Bytes
  opts : ProofRequestOptions
  tier : Nat
  deriving DecidableEq

/-- The argument record of one `ProveBlockTxBuilder.Build` invocation.
`Build` is an external collaborator that deterministically encodes its
arguments into an unsigned transaction, so the built transaction is
modelled by the arguments themselves. -/
structure BuildCall where
  blockID : Nat
  meta : TaikoDataBlockMetadata
  transition : TaikoDataTransition
  tierProof : TaikoDataTierProof
  isContest : Bool
  deriving DecidableEq

/-- Does `pat` occur at the head of `s`? (helper for `containsSub`). -/
def leadsList : List Char → List Char → Bool
  | [], _ => true
  | _ :: _, [] => false
  | p :: ps, c :: cs => p = c && leadsList ps cs

/-- Go `strings.Contains s pat`: `pat` occurs somewhere in `s`. -/
def containsSub (pat : List Char) : List Char → Bool
  | [] => leadsList pat []
  | c :: rest => leadsList pat (c :: rest) || containsSub pat rest

/-- The contract's reserved error-namespace tag checked by
`SubmitContest` (`"L1_"`). -/
def reservedL1Tag : List Char := ['L', '1', '_']

/-- Environment of external collaborators used by
`ProofContester.SubmitContest`: the `TaikoL1.GetTransition` read, the L2
and L1 header reads, `sender.Send` (returning `none` for a nil error),
and `encoding.TryParsingCustomError`. -/
structure ContesterEnv where
  getTransition : Nat → Hash → Except GoErr TaikoDataTransitionState
  l2HeaderByNumber : Nat → Except GoErr Header
  l1HeaderByNumber : Nat → Except GoErr Header
  send : ProofWithHeader → BuildCall → Option GoErr
  tryParsingCustomError : GoErr → GoErr

/-- The constructor-set state of a `ProofContester`: the 32-byte graffiti. -/
structure ProofContester where
  graffiti : Hash
  deriving DecidableEq

/-- `ProofContester.SubmitContest` (prover/proof_submitter). The first
component is the returned Go error (`none` = nil); the second is the
list of (proof payload, built transaction) pairs handed to
`sender.Send`, recording transaction submissions. -/
def submitContest (c : ProofContester) (env : ContesterEnv)
    (blockID proposedIn : Nat) (parentHash : Hash)
    (meta : TaikoDataBlockMetadata) (tier : Nat) :
    Option GoErr × List (ProofWithHeader × BuildCall) :=
  match env.getTransition blockID parentHash with
  | .error err =>
    if !containsSub reservedL1Tag (env.tryParsingCustomError err).msg then
      (none, [])
    else
      (some err, [])
  | .ok transition =>
    if transition.contester ≠ zeroAddress then
      (none, [])
    else
      match env.l2HeaderByNumber blockID with
      | .error e => (some e, [])
      | .ok header =>
        match env.l1HeaderByNumber proposedIn with
        | .error e => (some e, [])
        | .ok l1HeaderProposedIn =>
          let pwh : ProofWithHeader :=
            { blockID := blockID
              meta := meta
              header := header
              proof := []
              opts := { eventL1Hash := l1HeaderProposedIn.hashVal
                        stateRoot := header.root }
              tier := tier }
          let tx : BuildCall :=
            { blockID := blockID
              meta := meta
              transition := { parentHash := header.parentHash
                              blockHash := header.hashVal
                              stateRoot := header.root
                              graffiti := c.graffiti }
              tierProof := { tier := transition.tier, data := [] }
              isContest := false }
          ((env.send pwh tx).map env.tryParsingCustomError, [(pwh, tx)])

/-! ## ProofSubmitter (spec-level model)

`ProofSubmitter.SubmitProof` and `ProofSubmitter.RequestProof` are not
among the given source files — only their tests are — so they are
modelled from the spec. -/

/-- The `errMetadataNotFound`-style failure of `SubmitProof` when the
block's on-chain metadata cannot be found. -/
def errMetadataNotFound : GoErr := ⟨"metadata not found".toList⟩

/-- The constructor-set state of a `ProofSubmitter`: the 32-byte graffiti. -/
structure ProofSubmitter where
  graffiti : Hash
  deriving DecidableEq

/-- Environment of external collaborators used by `SubmitProof`: the
on-chain metadata lookup by block id and the transaction sender. -/
structure SubmitterEnv where
  onChainMeta : Nat → Option TaikoDataBlockMetadata
  send : ProofWithHeader → BuildCall → Option GoErr

/-- Modelled from the spec: `ProofSubmitter.SubmitProof` (its
implementation is missing from the sources; only its tests are present).
Per the spec it re-reads the block's on-chain metadata by block id and
fails if metadata cannot be found — detected by comparing stored
metadata fields against the input's `Meta` — and otherwise builds the
prove transaction (graffiti-tagged, tier and proof bytes taken from the
input) and submits it via the sender. The second component of the result
records the transactions handed to the sender. -/
def submitProof (s : ProofSubmitter) (env : SubmitterEnv)
    (pwh : ProofWithHeader) :
    Option GoErr × List (ProofWithHeader × BuildCall) :=
  match env.onChainMeta pwh.blockID with
  | none => (some errMetadataNotFound, [])
  | some stored =>
    if stored ≠ pwh.meta then
      (some errMetadataNotFound, [])
    else
      let tx : BuildCall :=
        { blockID := pwh.blockID
          meta := pwh.meta
          transition := { parentHash := pwh.header.parentHash
                          blockHash := pwh.header.hashVal
                          stateRoot := pwh.header.root
                          graffiti := s.graffiti }
          tierProof := { tier := pwh.tier, data := pwh.proof }
          isContest := false }
      (env.send pwh tx, [(pwh, tx)])

/-- The observable state of a Go `context.Context` at the point
`RequestProof` consults it: still live, deadline already elapsed, or
cancelled. -/
inductive CtxState where
  | live
  | deadlineExceeded
  | canceled
  deriving DecidableEq

/-- Error kinds that `RequestProof` can return: the deadline kind, the
cancellation kind, and errors propagated from the proof producer. -/
inductive ReqErr where
  | deadlineErr (msg : List Char)
  | canceledErr (msg : List Char)
  | producerErr (e : GoErr)
  deriving DecidableEq

/-- The `Error()` message of a `RequestProof` error. -/
def ReqErr.message : ReqErr → List Char
  | .deadlineErr m => m
  | .canceledErr m => m
  | .producerErr e => e.msg

/-- Go's `context.DeadlineExceeded.Error()` message. -/
def ctxDeadlineMsg : List Char := "context deadline exceeded".toList

/-- Go's `context.Canceled.Error()` message. -/
def ctxCanceledMsg : List Char := "context canceled".toList

/-- Environment used by `RequestProof`: the external proof producer,
keyed by the proposed block's id. -/
structure ProducerEnv where
  produceProof : Nat → Except GoErr ProofWithHeader

/-- Modelled from the spec: `ProofSubmitter.RequestProof` (its
implementation is missing from the sources; only its tests are present).
Per the spec it dispatches to the configured proof producer and suspends
until one of: the producer completes (the result is delivered onto the
shared proof channel and nil is returned), the context is cancelled
(fails with a cancellation-kind error), or the context deadline elapses
(fails with a deadline-kind error). The second component records the
proofs delivered to the channel. -/
def requestProof (env : ProducerEnv) (ctx : CtxState) (blockId : Nat) :
    Option ReqErr × List ProofWithHeader :=
  match ctx with
  | .deadlineExceeded => (some (.deadlineErr ctxDeadlineMsg), [])
  | .canceled => (some (.canceledErr ctxCanceledMsg), [])
  | .live =>
    match env.produceProof blockId with
    | .error e => (some (.producerErr e), [])
    | .ok pwh => (none, [pwh])

/-! ## Concrete example inputs (used by witnesses and counterexamples) -/

/-- A sidecar whose commitment hashes to `[97]` under `beaconEnvEx`. -/
def sidecarA : BlobSidecar := { kzgCommitment := ['a'], blob := ['b'] }

/-- A sidecar whose commitment hashes to `[99]` under `beaconEnvEx`. -/
def sidecarC : BlobSidecar := { kzgCommitment := ['c'], blob := ['d'] }

/-- Metadata with `BlobUsed` true whose blob hash matches `sidecarA`. -/
def metaBlobEx : TaikoDataBlockMetadata :=
  { blobUsed := true, l1Height := 7, blobHash := [97], blockId := 1 }

/-- Metadata with `BlobUsed` true matching no example sidecar. -/
def metaNoMatchEx : TaikoDataBlockMetadata :=
  { blobUsed := true, l1Height := 7, blobHash := [42], blockId := 1 }

/-- Metadata with `BlobUsed` false. -/
def metaNoBlobEx : TaikoDataBlockMetadata :=
  { blobUsed := false, l1Height := 7, blobHash := [97], blockId := 1 }

/-- A concrete beacon environment: hex decoding maps characters to their
code points, commitment hashing is the identity, the decoder succeeds. -/
def beaconEnvEx : BeaconEnv :=
  { getBlobs := fun _ => .ok [sidecarC, sidecarA]
    calcBlobHash := fun b => b
    fromHex := fun cs => cs.map Char.toNat
    toData := fun b => .ok b }

/-- A concrete L2 header. -/
def hdrEx : Header := { parentHash := [2], root := [3], hashVal := [4] }

/-- A concrete L1 header. -/
def l1hdrEx : Header := { parentHash := [5], root := [6], hashVal := [7] }

/-- A concrete contester with graffiti `[9]`. -/
def contesterEx : ProofContester := { graffiti := [9] }

/-- A non-zero contester address. -/
def addrEx : Address := 1 :: List.replicate 19 0

/-- A contester environment on which the full contest path succeeds:
the on-chain transition is uncontested with tier 300. -/
def envUncontestedEx : ContesterEnv :=
  { getTransition := fun _ _ => .ok { contester := zeroAddress, tier := 300 }
    l2HeaderByNumber := fun _ => .ok hdrEx
    l1HeaderByNumber := fun _ => .ok l1hdrEx
    send := fun _ _ => none
    tryParsingCustomError := fun e => e }

/-- A contester environment whose on-chain transition already has a
non-zero contester address (the chain state after one contest). -/
def envContestedEx : ContesterEnv :=
  { getTransition := fun _ _ => .ok { contester := addrEx, tier := 300 }
    l2HeaderByNumber := fun _ => .ok hdrEx
    l1HeaderByNumber := fun _ => .ok l1hdrEx
    send := fun _ _ => none
    tryParsingCustomError := fun e => e }

/-- A transient read failure whose message lacks the reserved tag. -/
def errTransientEx : GoErr := ⟨"connection refused".toList⟩

/-- A recognized contract-level failure carrying the reserved tag. -/
def errL1Ex : GoErr := ⟨"L1_TRANSITION_NOT_FOUND".toList⟩

/-- A contester environment whose transition read fails. -/
def envReadFailEx (e : GoErr) : ContesterEnv :=
  { getTransition := fun _ _ => .error e
    l2HeaderByNumber := fun _ => .ok hdrEx
    l1HeaderByNumber := fun _ => .ok l1hdrEx
    send := fun _ _ => none
    tryParsingCustomError := fun e => e }

/-- A submitter environment holding no on-chain metadata at all. -/
def submitterEnvEmptyEx : SubmitterEnv :=
  { onChainMeta := fun _ => none
    send := fun _ _ => none }

/-- A concrete `ProofWithHeader` input. -/
def pwhEx : ProofWithHeader :=
  { blockID := 256
    meta := metaBlobEx
    header := hdrEx
    proof := List.replicate 100 255
    opts := { eventL1Hash := [0], stateRoot := [0] }
    tier := 100 }

/-- A concrete producer environment. -/
def producerEnvEx : ProducerEnv :=
  { produceProof := fun _ => .ok pwhEx }

/-- A concrete proof submitter with graffiti `[9]`. -/
def proofSubmitterEx : ProofSubmitter := { graffiti := [9] }

/-! ## Theorems -/

/-- The matching loop of `Fetch` is the first-match search `List.find?`
followed by the blob decoder. -/
theorem findAndDecode_eq_find (env : BeaconEnv) (target : Hash)
    (l : List BlobSidecar) :
    findAndDecode env target l =
      match l.find? (sidecarMatches env target) with
      | some s =>
        (match env.toData (env.fromHex s.blob) with
         | .ok d => Except.ok d
         | .error e => Except.error (.decodeErr e))
      | none => Except.error .sidecarNotFound := by
  induction l with
  | nil => rfl
  | cons s rest ih =>
    cases h : sidecarMatches env target s with
    | true => simp [findAndDecode, h, List.find?]
    | false => simp [findAndDecode, h, List.find?, ih]

/-- C1: with `BlobUsed` true and the beacon read for slot
`meta.L1Height + 1` returning `sidecars`, `Fetch` returns the
decoder's output on the first sidecar (in list order) whose computed
commitment hash equals `meta.BlobHash` byte-for-byte, failing with the
sidecar-not-found error when none matches; consequently, whenever the
blob decoder succeeds on the listed blobs, `Fetch` returns decoded data
if and only if some sidecar's commitment hash equals `meta.BlobHash`. -/
theorem fetch_first_matching_sidecar (env : BeaconEnv)
    (meta : TaikoDataBlockMetadata) (sidecars : List BlobSidecar)
    (hused : meta.blobUsed = true)
    (hget : env.getBlobs (meta.l1Height + 1) = .ok sidecars) :
    (fetch env meta).1 =
      (match sidecars.find? (sidecarMatches env meta.blobHash) with
       | some s =>
         (match env.toData (env.fromHex s.blob) with
          | .ok d => Except.ok d
          | .error e => Except.error (.decodeErr e))
       | none => Except.error .sidecarNotFound) ∧
    ((∀ s ∈ sidecars, (env.toData (env.fromHex s.blob)).toOption.isSome) →
      ((∃ d, (fetch env meta).1 = .ok d) ↔
        ∃ s ∈ sidecars, sidecarMatches env meta.blobHash s = true)) := by
  have hfetch : (fetch env meta).1 = findAndDecode env meta.blobHash sidecars := by
    simp [fetch, hused, hget]
  constructor
  · rw [hfetch, findAndDecode_eq_find]
  · intro hdec
    rw [hfetch, findAndDecode_eq_find]
    cases hfind : sidecars.find? (sidecarMatches env meta.blobHash) with
    | none =>
      simp only [List.find?_eq_none] at hfind
      constructor
      · rintro ⟨d, hd⟩
        simp at hd
      · rintro ⟨s, hs, hm⟩
        exact absurd hm (by simpa using hfind s hs)
    | some s =>
      have hmem : s ∈ sidecars := List.mem_of_find?_eq_some hfind
      have hmatch : sidecarMatches env meta.blobHash s = true :=
        List.find?_some hfind
      have := hdec s hmem
      cases htd : env.toData (env.fromHex s.blob) with
      | ok d =>
        constructor
        · intro _; exact ⟨s, hmem, hmatch⟩
        · intro _; exact ⟨d, by simp [htd]⟩
      | error e => simp [htd, Except.toOption] at this

/-- C5: with `BlobUsed` true and the beacon read returning a sidecar
list in which no sidecar's computed commitment hash equals
`meta.BlobHash`, `Fetch` fails with the sidecar-not-found error (and
hence with no other error kind). -/
theorem fetch_no_match_sidecarNotFound (env : BeaconEnv)
    (meta : TaikoDataBlockMetadata) (sidecars : List BlobSidecar)
    (hused : meta.blobUsed = true)
    (hget : env.getBlobs (meta.l1Height + 1) = .ok sidecars)
    (hnone : ∀ s ∈ sidecars, sidecarMatches env meta.blobHash s = false) :
    (fetch env meta).1 = .error .sidecarNotFound := by
  have hfetch : (fetch env meta).1 = findAndDecode env meta.blobHash sidecars := by
    simp [fetch, hused, hget]
  rw [hfetch, findAndDecode_eq_find]
  have hfind : sidecars.find? (sidecarMatches env meta.blobHash) = none := by
    rw [List.find?_eq_none]
    intro s hs
    simp [hnone s hs]
  rw [hfind]

/-- C7: with `BlobUsed` false `Fetch` fails with the blob-unused error,
which is a distinct kind from the sidecar-not-found error. -/
theorem fetch_blobUnused (env : BeaconEnv) (meta : TaikoDataBlockMetadata)
    (h : meta.blobUsed = false) :
    (fetch env meta).1 = .error .blobUnused ∧
      FetchErr.blobUnused ≠ FetchErr.sidecarNotFound := by
  refine ⟨?_, by simp⟩
  simp [fetch, h]

/-- C10: with `BlobUsed` false `Fetch` returns the blob-unused error
having issued no beacon `GetBlobs` call (its network-read trace is
empty). -/
theorem fetch_blobUnused_no_beacon_call (env : BeaconEnv)
    (meta : TaikoDataBlockMetadata) (h : meta.blobUsed = false) :
    fetch env meta = (.error .blobUnused, []) := by
  simp [fetch, h]

/-- Witness for C1 at a concrete environment and metadata. -/
theorem fetch_first_matching_sidecar_witness :
    metaBlobEx.blobUsed = true ∧
    beaconEnvEx.getBlobs (metaBlobEx.l1Height + 1) = .ok [sidecarC, sidecarA] ∧
    ((fetch beaconEnvEx metaBlobEx).1 =
      (match ([sidecarC, sidecarA]).find?
          (sidecarMatches beaconEnvEx metaBlobEx.blobHash) with
       | some s =>
         (match beaconEnvEx.toData (beaconEnvEx.fromHex s.blob) with
          | .ok d => Except.ok d
          | .error e => Except.error (.decodeErr e))
       | none => Except.error .sidecarNotFound) ∧
     ((∀ s ∈ [sidecarC, sidecarA],
         (beaconEnvEx.toData (beaconEnvEx.fromHex s.blob)).toOption.isSome) →
       ((∃ d, (fetch beaconEnvEx metaBlobEx).1 = .ok d) ↔
         ∃ s ∈ [sidecarC, sidecarA],
           sidecarMatches beaconEnvEx metaBlobEx.blobHash s = true))) :=
  ⟨rfl, rfl,
    fetch_first_matching_sidecar beaconEnvEx metaBlobEx [sidecarC, sidecarA]
      rfl rfl⟩

/-- Witness for C5 at a concrete environment and non-matching metadata. -/
theorem fetch_no_match_sidecarNotFound_witness :
    metaNoMatchEx.blobUsed = true ∧
    beaconEnvEx.getBlobs (metaNoMatchEx.l1Height + 1) = .ok [sidecarC, sidecarA] ∧
    (∀ s ∈ [sidecarC, sidecarA],
      sidecarMatches beaconEnvEx metaNoMatchEx.blobHash s = false) ∧
    (fetch beaconEnvEx metaNoMatchEx).1 = .error .sidecarNotFound :=
  ⟨rfl, rfl, by decide,
    fetch_no_match_sidecarNotFound beaconEnvEx metaNoMatchEx [sidecarC, sidecarA]
      rfl rfl (by decide)⟩

/-- Witness for C7 at metadata with `BlobUsed` false. -/
theorem fetch_blobUnused_witness :
    metaNoBlobEx.blobUsed = false ∧
    ((fetch beaconEnvEx metaNoBlobEx).1 = .error .blobUnused ∧
      FetchErr.blobUnused ≠ FetchErr.sidecarNotFound) :=
  ⟨rfl, fetch_blobUnused beaconEnvEx metaNoBlobEx rfl⟩

/-- Witness for C10 at metadata with `BlobUsed` false. -/
theorem fetch_blobUnused_no_beacon_call_witness :
    metaNoBlobEx.blobUsed = false ∧
    fetch beaconEnvEx metaNoBlobEx = (.error .blobUnused, []) :=
  ⟨rfl, fetch_blobUnused_no_beacon_call beaconEnvEx metaNoBlobEx rfl⟩

/-- C2: `SubmitContest` is idempotent. On a chain whose on-chain
transition for `(blockID, parentHash)` has a non-zero contester address
it returns nil and hands nothing to the sender; so a first call on the
uncontested chain (which submits one contest) followed by a call on the
resulting contested chain submits exactly one contest in total. -/
theorem submitContest_idempotent
    (c : ProofContester) (env₁ env₂ : ContesterEnv)
    (blockID proposedIn : Nat) (parentHash : Hash)
    (meta : TaikoDataBlockMetadata) (tier : Nat)
    (t₁ t₂ : TaikoDataTransitionState) (hdr l1hdr : Header)
    (h₁ : env₁.getTransition blockID parentHash = .ok t₁)
    (hc₁ : t₁.contester = zeroAddress)
    (hL2 : env₁.l2HeaderByNumber blockID = .ok hdr)
    (hL1 : env₁.l1HeaderByNumber proposedIn = .ok l1hdr)
    (h₂ : env₂.getTransition blockID parentHash = .ok t₂)
    (hc₂ : t₂.contester ≠ zeroAddress) :
    submitContest c env₂ blockID proposedIn parentHash meta tier = (none, []) ∧
    (submitContest c env₁ blockID proposedIn parentHash meta tier).2.length +
      (submitContest c env₂ blockID proposedIn parentHash meta tier).2.length
      = 1 := by
  have hsnd :
      submitContest c env₂ blockID proposedIn parentHash meta tier = (none, []) := by
    simp [submitContest, h₂, hc₂]
  have hfst :
      (submitContest c env₁ blockID proposedIn parentHash meta tier).2.length = 1 := by
    simp [submitContest, h₁, hc₁, hL2, hL1]
  exact ⟨hsnd, by rw [hfst, hsnd]; rfl⟩

/-- Witness for C2: one uncontested-chain call followed by one
contested-chain call submits exactly one contest. -/
theorem submitContest_idempotent_witness :
    envUncontestedEx.getTransition 1 [0] = .ok ⟨zeroAddress, 300⟩ ∧
    (⟨zeroAddress, 300⟩ : TaikoDataTransitionState).contester = zeroAddress ∧
    envUncontestedEx.l2HeaderByNumber 1 = .ok hdrEx ∧
    envUncontestedEx.l1HeaderByNumber 2 = .ok l1hdrEx ∧
    envContestedEx.getTransition 1 [0] = .ok ⟨addrEx, 300⟩ ∧
    (⟨addrEx, 300⟩ : TaikoDataTransitionState).contester ≠ zeroAddress ∧
    (submitContest contesterEx envContestedEx 1 2 [0] metaBlobEx 5 = (none, []) ∧
      (submitContest contesterEx envUncontestedEx 1 2 [0] metaBlobEx 5).2.length +
        (submitContest contesterEx envContestedEx 1 2 [0] metaBlobEx 5).2.length
        = 1) :=
  ⟨rfl, rfl, rfl, rfl, rfl, by decide,
    submitContest_idempotent contesterEx envUncontestedEx envContestedEx
      1 2 [0] metaBlobEx 5 ⟨zeroAddress, 300⟩ ⟨addrEx, 300⟩ hdrEx l1hdrEx
      rfl rfl rfl rfl rfl (by decide)⟩

/-- C3: on the successful contest path the single transaction handed to
the sender is built from the on-chain transition's tier (not the
caller-supplied `tier` argument), the freshly read L2 header's hash,
parent hash and state root, the process graffiti, and empty proof
bytes (both in the tier proof and in the proof payload). -/
theorem submitContest_contest_tx_fields
    (c : ProofContester) (env : ContesterEnv)
    (blockID proposedIn : Nat) (parentHash : Hash)
    (meta : TaikoDataBlockMetadata) (tier : Nat)
    (t : TaikoDataTransitionState) (hdr l1hdr : Header)
    (hget : env.getTransition blockID parentHash = .ok t)
    (hc : t.contester = zeroAddress)
    (hL2 : env.l2HeaderByNumber blockID = .ok hdr)
    (hL1 : env.l1HeaderByNumber proposedIn = .ok l1hdr) :
    (submitContest c env blockID proposedIn parentHash meta tier).2 =
      [({ blockID := blockID
          meta := meta
          header := hdr
          proof := []
          opts := { eventL1Hash := l1hdr.hashVal, stateRoot := hdr.root }
          tier := tier },
        { blockID := blockID
          meta := meta
          transition := { parentHash := hdr.parentHash
                          blockHash := hdr.hashVal
                          stateRoot := hdr.root
                          graffiti := c.graffiti }
          tierProof := { tier := t.tier, data := [] }
          isContest := false })] := by
  simp [submitContest, hget, hc, hL2, hL1]

/-- Witness for C3 at a concrete uncontested environment (on-chain tier
300, caller-supplied tier 5). -/
theorem submitContest_contest_tx_fields_witness :
    envUncontestedEx.getTransition 1 [0] = .ok ⟨zeroAddress, 300⟩ ∧
    (⟨zeroAddress, 300⟩ : TaikoDataTransitionState).contester = zeroAddress ∧
    envUncontestedEx.l2HeaderByNumber 1 = .ok hdrEx ∧
    envUncontestedEx.l1HeaderByNumber 2 = .ok l1hdrEx ∧
    (submitContest contesterEx envUncontestedEx 1 2 [0] metaBlobEx 5).2 =
      [({ blockID := 1
          meta := metaBlobEx
          header := hdrEx
          proof := []
          opts := { eventL1Hash := l1hdrEx.hashVal, stateRoot := hdrEx.root }
          tier := 5 },
        { blockID := 1
          meta := metaBlobEx
          transition := { parentHash := hdrEx.parentHash
                          blockHash := hdrEx.hashVal
                          stateRoot := hdrEx.root
                          graffiti := contesterEx.graffiti }
          tierProof := { tier := 300, data := [] }
          isContest := false })] :=
  ⟨rfl, rfl, rfl, rfl,
    submitContest_contest_tx_fields contesterEx envUncontestedEx
      1 2 [0] metaBlobEx 5 ⟨zeroAddress, 300⟩ hdrEx l1hdrEx rfl rfl rfl rfl⟩

/-- C4: when the initial transition read fails with `e`, `SubmitContest`
classifies the parsed message: without the reserved `"L1_"` tag it
returns nil (the error is swallowed) and with the tag it returns the
error to the caller; in both branches nothing is handed to the sender. -/
theorem submitContest_read_error_classification
    (c : ProofContester) (env : ContesterEnv)
    (blockID proposedIn : Nat) (parentHash : Hash)
    (meta : TaikoDataBlockMetadata) (tier : Nat) (e : GoErr)
    (herr : env.getTransition blockID parentHash = .error e) :
    (containsSub reservedL1Tag (env.tryParsingCustomError e).msg = false →
      submitContest c env blockID proposedIn parentHash meta tier = (none, [])) ∧
    (containsSub reservedL1Tag (env.tryParsingCustomError e).msg = true →
      submitContest c env blockID proposedIn parentHash meta tier = (some e, [])) := by
  constructor <;> intro h <;> simp [submitContest, herr, h]

/-- Witness for C4 at a concrete failing read whose message lacks the
reserved tag. -/
theorem submitContest_read_error_classification_witness :
    (envReadFailEx errTransientEx).getTransition 1 [0] = .error errTransientEx ∧
    ((containsSub reservedL1Tag
        ((envReadFailEx errTransientEx).tryParsingCustomError errTransientEx).msg
        = false →
      submitContest contesterEx (envReadFailEx errTransientEx) 1 2 [0]
        metaBlobEx 5 = (none, [])) ∧
     (containsSub reservedL1Tag
        ((envReadFailEx errTransientEx).tryParsingCustomError errTransientEx).msg
        = true →
      submitContest contesterEx (envReadFailEx errTransientEx) 1 2 [0]
        metaBlobEx 5 = (some errTransientEx, []))) :=
  ⟨rfl,
    submitContest_read_error_classification contesterEx (envReadFailEx errTransientEx)
      1 2 [0] metaBlobEx 5 errTransientEx rfl⟩

/-- C6 counterexample: at a concrete uncontested environment the single
`Build` invocation made by `SubmitContest` has `isContest = false`, so
it is not the case that every `Build` invocation has `isContest = true`. -/
theorem submitContest_isContest_cex :
    ¬ ∀ pt ∈ (submitContest contesterEx envUncontestedEx 1 2 [0] metaBlobEx 5).2,
        pt.2.isContest = true := by decide

/-- C6 amended: on the successful contest path the single `Build`
invocation made by `SubmitContest` passes `isContest = false`. -/
theorem submitContest_isContest_false
    (c : ProofContester) (env : ContesterEnv)
    (blockID proposedIn : Nat) (parentHash : Hash)
    (meta : TaikoDataBlockMetadata) (tier : Nat)
    (t : TaikoDataTransitionState) (hdr l1hdr : Header)
    (hget : env.getTransition blockID parentHash = .ok t)
    (hc : t.contester = zeroAddress)
    (hL2 : env.l2HeaderByNumber blockID = .ok hdr)
    (hL1 : env.l1HeaderByNumber proposedIn = .ok l1hdr) :
    ((submitContest c env blockID proposedIn parentHash meta tier).2.map
        fun pt => pt.2.isContest) = [false] := by
  simp [submitContest, hget, hc, hL2, hL1]

/-- Witness for the amended C6 at a concrete uncontested environment. -/
theorem submitContest_isContest_false_witness :
    envUncontestedEx.getTransition 1 [0] = .ok ⟨zeroAddress, 300⟩ ∧
    (⟨zeroAddress, 300⟩ : TaikoDataTransitionState).contester = zeroAddress ∧
    envUncontestedEx.l2HeaderByNumber 1 = .ok hdrEx ∧
    envUncontestedEx.l1HeaderByNumber 2 = .ok l1hdrEx ∧
    ((submitContest contesterEx envUncontestedEx 1 2 [0] metaBlobEx 5).2.map
        fun pt => pt.2.isContest) = [false] :=
  ⟨rfl, rfl, rfl, rfl,
    submitContest_isContest_false contesterEx envUncontestedEx
      1 2 [0] metaBlobEx 5 ⟨zeroAddress, 300⟩ hdrEx l1hdrEx rfl rfl rfl rfl⟩

/-- C8: when no on-chain metadata stored for the block id equals the
input's `Meta` fields, `SubmitProof` returns a non-nil error and hands
no transaction to the sender. -/
theorem submitProof_meta_not_found
    (s : ProofSubmitter) (env : SubmitterEnv) (pwh : ProofWithHeader)
    (h : ∀ m, env.onChainMeta pwh.blockID = some m → m ≠ pwh.meta) :
    (submitProof s env pwh).1.isSome = true ∧ (submitProof s env pwh).2 = [] := by
  unfold submitProof
  cases hm : env.onChainMeta pwh.blockID with
  | none => simp
  | some stored => simp [h stored hm]

/-- Witness for C8: an environment holding no on-chain metadata. -/
theorem submitProof_meta_not_found_witness :
    (∀ m, submitterEnvEmptyEx.onChainMeta pwhEx.blockID = some m → m ≠ pwhEx.meta) ∧
    ((submitProof proofSubmitterEx submitterEnvEmptyEx pwhEx).1.isSome = true ∧
      (submitProof proofSubmitterEx submitterEnvEmptyEx pwhEx).2 = []) :=
  ⟨fun _ hm => Option.noConfusion hm,
    submitProof_meta_not_found proofSubmitterEx submitterEnvEmptyEx pwhEx
      (fun _ hm => Option.noConfusion hm)⟩

/-- C9: `RequestProof` under an already-elapsed deadline returns the
deadline-kind error whose message indicates "deadline exceeded",
under a cancelled context returns the cancellation-kind error whose
message indicates "context canceled", and the two kinds are
distinguishable. -/
theorem requestProof_ctx_error_kinds (env : ProducerEnv) (blockId : Nat) :
    (requestProof env .deadlineExceeded blockId).1
      = some (.deadlineErr ctxDeadlineMsg) ∧
    containsSub ("deadline exceeded".toList) ctxDeadlineMsg = true ∧
    (requestProof env .canceled blockId).1
      = some (.canceledErr ctxCanceledMsg) ∧
    containsSub ("context canceled".toList) ctxCanceledMsg = true ∧
    ReqErr.deadlineErr ctxDeadlineMsg ≠ ReqErr.canceledErr ctxCanceledMsg :=
  ⟨rfl, by decide, rfl, by decide, by decide⟩

/-- Witness for C9 at a concrete producer environment and block id. -/
theorem requestProof_ctx_error_kinds_witness :
    (requestProof producerEnvEx .deadlineExceeded 256).1
      = some (.deadlineErr ctxDeadlineMsg) ∧
    containsSub ("deadline exceeded".toList) ctxDeadlineMsg = true ∧
    (requestProof producerEnvEx .canceled 256).1
      = some (.canceledErr ctxCanceledMsg) ∧
    containsSub ("context canceled".toList) ctxCanceledMsg = true ∧
    ReqErr.deadlineErr ctxDeadlineMsg ≠ ReqErr.canceledErr ctxCanceledMsg :=
  requestProof_ctx_error_kinds producerEnvEx 256

end TaikoClient
